import Mathlib

/-!
Verification of the DoQui dashboard frontend (`app.js`).

The file shallowly embeds the client-side state machine of the dashboard:
the shared `state` record, the module-level animation variables
(`sunRadius`, `targetSunRadius`, `sunPulse`, `animationSpeed`), the eight
planet descriptors with their mutable angles, the WebSocket message handler
`handleMessage`, the per-frame state update performed by `drawSolarSystem`,
the UI projections (`updateAgentStatus`, `updateSpeakerStatus`,
`updateVADStatus`), the `toggleAgent` control, the `onclose` reconnect
scheduling, and the color helpers `lightenColor` / `darkenColor`.

JavaScript numbers are modelled as exact rationals: every arithmetic
operation the claims touch (linear maps, min/max clamps, the 0.1 smoothing
filter, `Math.round`) is exact on the dyadic/decimal values involved.
Planet angles are initialised at rational multiples of π, so an angle is
represented as a pair (a, b) denoting the real number a + b·π; the frame
step only ever adds a rational to the first component, exactly as
`planet.angle += planet.speed * speedMultiplier` does.
-/

namespace DoQui

/-- The shared `state` record of `app.js` (lines 13–19). `audioLevel` is
initialised to −80 and, notably, never written by any handler. -/
structure AgentState where
  running : Bool
  speakerVerified : Bool
  speakerScore : ℚ
  audioLevel : ℚ
  vadSpeaking : Bool
deriving DecidableEq

/-- An angle value a + b·π radians, kept in exact form because the initial
planet angles are rational multiples of π while all per-frame increments
are rational. -/
structure AngleVal where
  lin : ℚ
  piCoeff : ℚ
deriving DecidableEq

/-- The real number an `AngleVal` denotes. -/
noncomputable def AngleVal.toReal (a : AngleVal) : ℝ :=
  (a.lin : ℝ) + (a.piCoeff : ℝ) * Real.pi

/-- One entry of the `planets` array (lines 26–35): immutable descriptor
plus the mutable `angle` field. Colors are the 24-bit values of the hex
literals. -/
structure Planet where
  name : String
  radius : ℚ
  speed : ℚ
  size : ℚ
  color : ℕ
  hasRings : Bool
  angle : AngleVal
deriving DecidableEq

/-- The `planets` array as initialised at load time. -/
def initialPlanets : List Planet :=
  [ { name := "Mercury", radius := 45, speed := 4/100, size := 3,
      color := 0xb5b5b5, hasRings := false, angle := ⟨0, 0⟩ },
    { name := "Venus", radius := 65, speed := 3/100, size := 5,
      color := 0xe6c87a, hasRings := false, angle := ⟨0, 1/4⟩ },
    { name := "Earth", radius := 85, speed := 25/1000, size := 5,
      color := 0x6b93d6, hasRings := false, angle := ⟨0, 1/2⟩ },
    { name := "Mars", radius := 105, speed := 2/100, size := 4,
      color := 0xc1440e, hasRings := false, angle := ⟨0, 3/4⟩ },
    { name := "Jupiter", radius := 130, speed := 12/1000, size := 12,
      color := 0xd8ca9d, hasRings := false, angle := ⟨0, 1⟩ },
    { name := "Saturn", radius := 155, speed := 9/1000, size := 10,
      color := 0xf4d59e, hasRings := true, angle := ⟨0, 5/4⟩ },
    { name := "Uranus", radius := 175, speed := 6/1000, size := 7,
      color := 0xd1e7e7, hasRings := false, angle := ⟨0, 3/2⟩ },
    { name := "Neptune", radius := 192, speed := 4/1000, size := 6,
      color := 0x5b5ddf, hasRings := false, angle := ⟨0, 7/4⟩ } ]

/-- The whole mutable module-level state of `app.js` that the claims
concern: the `state` record, the planet angles, and the animation scalars
(lines 39–42). -/
structure ModuleState where
  agent : AgentState
  planets : List Planet
  sunRadius : ℚ
  targetSunRadius : ℚ
  sunPulse : ℚ
  animationSpeed : ℚ
deriving DecidableEq

/-- Module state at page load. -/
def initState : ModuleState :=
  { agent := { running := false, speakerVerified := false, speakerScore := 0,
               audioLevel := -80, vadSpeaking := false },
    planets := initialPlanets,
    sunRadius := 18, targetSunRadius := 18, sunPulse := 0,
    animationSpeed := 1 }

/-- Inbound WebSocket messages, discriminated by their `type` field as in
`handleMessage` (lines 263–295). `other` stands for any unknown type,
which falls through the switch. -/
inductive Msg where
  | state (running speaker_verified : Bool) (speaker_score : ℚ) (vad_speaking : Bool)
  | status (running : Bool)
  | speaker (verified : Bool) (score : ℚ)
  | vad (speaking : Bool)
  | audio (level : ℚ)
  | other
deriving DecidableEq

/-- `handleMessage` (lines 263–295): the state mutation of each case.
The `audio` case is lines 290–292:
`animationSpeed = Math.max(0.5, Math.min(3, (level + 80) / 20))` and
`targetSunRadius = 15 + Math.max(0, (level + 60) / 3)`. -/
def handleMessage (msg : Msg) (s : ModuleState) : ModuleState :=
  match msg with
  | .state r v sc sp =>
      { s with agent := { s.agent with
          running := r, speakerVerified := v,
          speakerScore := sc, vadSpeaking := sp } }
  | .status r => { s with agent := { s.agent with running := r } }
  | .speaker v sc =>
      { s with agent := { s.agent with speakerVerified := v, speakerScore := sc } }
  | .vad sp => { s with agent := { s.agent with vadSpeaking := sp } }
  | .audio level =>
      { s with animationSpeed := max (1/2) (min 3 ((level + 80) / 20)),
               targetSunRadius := 15 + max 0 ((level + 60) / 3) }
  | .other => s

/-- The per-planet speed multiplier of line 158:
`state.vadSpeaking ? 3 : (state.running ? animationSpeed : 0.3)`. -/
def speedMultiplier (s : ModuleState) : ℚ :=
  if s.agent.vadSpeaking then 3
  else if s.agent.running then s.animationSpeed
  else 3/10

/-- Line 159: `planet.angle += planet.speed * speedMultiplier`. -/
def stepPlanet (m : ℚ) (p : Planet) : Planet :=
  { p with angle := ⟨p.angle.lin + p.speed * m, p.angle.piCoeff⟩ }

/-- The state-updating part of one `drawSolarSystem` frame: the sun-radius
smoothing (line 58), the pulse advance (line 59), and the angle advance of
every planet (lines 156–159). Pure drawing commands mutate no state. -/
def frameStep (s : ModuleState) : ModuleState :=
  { s with sunRadius := s.sunRadius + (s.targetSunRadius - s.sunRadius) * (1/10),
           sunPulse := s.sunPulse + 5/100,
           planets := s.planets.map (stepPlanet (speedMultiplier s)) }

/-- `n` consecutive rendered frames. -/
def frames (n : ℕ) (s : ModuleState) : ModuleState :=
  frameStep^[n] s

/-- The four sun-glow color ramps of lines 81–100, named after their
comments in the source. -/
inductive GlowTier where
  | speaking
  | verified
  | running
  | idle
deriving DecidableEq

/-- The glow-ramp selection of lines 81–100: the if / else-if chain
testing `state.vadSpeaking`, then `state.speakerVerified`, then
`state.running`. -/
def glowTier (s : AgentState) : GlowTier :=
  if s.vadSpeaking then .speaking
  else if s.speakerVerified then .verified
  else if s.running then .running
  else .idle

/-- JavaScript `Math.round` on the exact rationals that occur here:
round half away from minus infinity, i.e. ⌊x + 1/2⌋. -/
def jsRound (q : ℚ) : ℤ :=
  ⌊q + 1/2⌋

/-- The DOM outputs written by `updateAgentStatus` (lines 305–324). -/
structure AgentView where
  badgeText : String
  badgeClass : String
  btnClass : String
  btnIcon : String
  btnText : String
deriving DecidableEq

/-- `updateAgentStatus` (lines 305–324) as a pure projection of the
agent state. -/
def updateAgentStatus (s : AgentState) : AgentView :=
  if s.running then
    { badgeText := "Online", badgeClass := "status-badge online",
      btnClass := "toggle-btn running", btnIcon := "⏹", btnText := "Stop Agent" }
  else
    { badgeText := "Offline", badgeClass := "status-badge offline",
      btnClass := "toggle-btn", btnIcon := "▶", btnText := "Start Agent" }

/-- The DOM outputs written by `updateSpeakerStatus` (lines 326–352):
badge class, icon, text, and the progress-bar fill percentage (both
`score-fill` width and `score-value` text show the same percent). -/
structure SpeakerView where
  badgeClass : String
  icon : String
  text : String
  fillPercent : ℤ
deriving DecidableEq

/-- `updateSpeakerStatus` (lines 326–352) as a pure projection:
`percent = Math.round(score * 100)` is always written to the fill, and the
badge is "Waiting..." when not running, else "Verified" when verified,
else "Locked". -/
def updateSpeakerStatus (s : AgentState) : SpeakerView :=
  let percent := jsRound (s.speakerScore * 100)
  if !s.running then
    { badgeClass := "speaker-badge unknown", icon := "❓",
      text := "Waiting...", fillPercent := percent }
  else if s.speakerVerified then
    { badgeClass := "speaker-badge verified", icon := "✅",
      text := "Verified", fillPercent := percent }
  else
    { badgeClass := "speaker-badge locked", icon := "🔒",
      text := "Locked", fillPercent := percent }

/-- The DOM outputs written by `updateVADStatus` (lines 354–365). -/
structure VadView where
  indicatorClass : String
  text : String
deriving DecidableEq

/-- `updateVADStatus` (lines 354–365) as a pure projection. -/
def updateVADStatus (s : AgentState) : VadView :=
  if s.vadSpeaking then
    { indicatorClass := "vad-indicator speaking", text := "Speaking..." }
  else
    { indicatorClass := "vad-indicator silent", text := "Silent" }

/-- `updateUI` (lines 299–303): refresh all three views. -/
def updateUI (s : AgentState) : AgentView × SpeakerView × VadView :=
  (updateAgentStatus s, updateSpeakerStatus s, updateVADStatus s)

/-- `WebSocket.OPEN` (the ready-state constant 1). -/
def WS_OPEN : ℕ :=
  1

/-- The two outbound command frames of `toggleAgent` (lines 388–392). -/
inductive OutCmd where
  | start
  | stop
deriving DecidableEq

/-- `toggleAgent` (lines 382–393). The first argument is the `ws`
variable: `none` when `ws` is still null, `some r` when a socket with
`readyState = r` exists. The result is the module state afterwards, the
transmitted frame (if any), and whether `console.error` was invoked. -/
def toggleAgent (ws : Option ℕ) (s : ModuleState) :
    ModuleState × Option OutCmd × Bool :=
  match ws with
  | none => (s, none, true)
  | some r =>
      if r ≠ WS_OPEN then (s, none, true)
      else if s.agent.running then (s, some .stop, false)
      else (s, some .start, false)

/-- The fixed reconnect delay of line 250: `setTimeout(connect, 2000)`. -/
def RECONNECT_DELAY_MS : ℕ :=
  2000

/-- Connection bookkeeping relevant to the `onclose` handler: the
`connected` indicator and the fire times of all pending `connect()`
timers. -/
structure ConnSched where
  connected : Bool
  scheduled : List ℕ
deriving DecidableEq

/-- The `ws.onclose` handler (lines 247–251), closing at time `t`:
`updateConnectionStatus(false)` then `setTimeout(connect, 2000)` — i.e.
exactly one new timer, firing at `t + 2000`. -/
def wsOnClose (t : ℕ) (c : ConnSched) : ConnSched :=
  { connected := false, scheduled := c.scheduled ++ [t + RECONNECT_DELAY_MS] }

/-- A whole sequence of connection closes at the given times, in order. -/
def processCloses (ts : List ℕ) (c : ConnSched) : ConnSched :=
  ts.foldl (fun acc t => wsOnClose t acc) c

/-- The three channels decoded from a 24-bit color value, as
`num >> 16`, `(num >> 8) & 0xff`, `num & 0xff` do. -/
def channels (num : ℕ) : ℕ × ℕ × ℕ :=
  (num / 65536, num / 256 % 256, num % 256)

/-- `lightenColor` (lines 215–222) on the decoded 24-bit value: each
channel becomes `Math.min(255, channel + Math.round(2.55 * percent))`.
Channels are integers because a negative `percent` can drive them
negative (there is no lower clamp in `lightenColor`). -/
def lightenRGB (num : ℕ) (percent : ℚ) : ℤ × ℤ × ℤ :=
  let amt := jsRound (255/100 * percent)
  ((min 255 ((channels num).1 + amt) : ℤ),
   (min 255 ((channels num).2.1 + amt) : ℤ),
   (min 255 ((channels num).2.2 + amt) : ℤ))

/-- `darkenColor` (lines 224–231) on the decoded 24-bit value: each
channel becomes `Math.max(0, channel - Math.round(2.55 * percent))`. -/
def darkenRGB (num : ℕ) (percent : ℚ) : ℤ × ℤ × ℤ :=
  let amt := jsRound (255/100 * percent)
  ((max 0 ((channels num).1 - amt) : ℤ),
   (max 0 ((channels num).2.1 - amt) : ℤ),
   (max 0 ((channels num).2.2 - amt) : ℤ))

/-- The `rgb(R, G, B)` string both color helpers return. -/
def rgbString (c : ℤ × ℤ × ℤ) : String :=
  "rgb(" ++ toString c.1 ++ ", " ++ toString c.2.1 ++ ", " ++ toString c.2.2 ++ ")"

/-- `lightenColor`, including the final string encoding. -/
def lightenColor (num : ℕ) (percent : ℚ) : String :=
  rgbString (lightenRGB num percent)

/-- `darkenColor`, including the final string encoding. -/
def darkenColor (num : ℕ) (percent : ℚ) : String :=
  rgbString (darkenRGB num percent)

/-- The clamp function named by the spec: `clamp(x, lo, hi)`. -/
def clamp (x lo hi : ℚ) : ℚ :=
  min hi (max lo x)

/-- A planet value used as `List.getD` default when indexing the planet
list at a position that is known to exist. -/
def defaultPlanet : Planet :=
  { name := "", radius := 0, speed := 0, size := 0, color := 0,
    hasRings := false, angle := ⟨0, 0⟩ }

/-- States whose animation speed and planet speeds are nonnegative; every
state the program can reach satisfies this (the initial speeds are
positive literals and `animationSpeed` is clamped to at least 0.5). -/
def wellFormed (s : ModuleState) : Bool :=
  decide (0 ≤ s.animationSpeed) && s.planets.all (fun p => decide (0 ≤ p.speed))

/-- A concrete state with the sun radius away from its target, used to
witness the smoothing-convergence theorem. -/
def sampleAudioState : ModuleState :=
  { initState with sunRadius := 0, targetSunRadius := 20 }

/-- One frame advances a planet without decreasing its angle: the
rational part does not decrease, the π-coefficient is untouched, and
hence the real angle in radians does not decrease. -/
def angleAdvances (p q : Planet) : Prop :=
  p.angle.lin ≤ q.angle.lin ∧ p.angle.piCoeff = q.angle.piCoeff ∧
    p.angle.toReal ≤ q.angle.toReal

/-- All three channels of an RGB triple lie in [0, 255]. -/
def inByteRange (c : ℤ × ℤ × ℤ) : Prop :=
  0 ≤ c.1 ∧ c.1 ≤ 255 ∧ 0 ≤ c.2.1 ∧ c.2.1 ≤ 255 ∧ 0 ≤ c.2.2 ∧ c.2.2 ≤ 255

/- ### Helper lemmas -/

theorem frames_targetSunRadius (n : ℕ) (s : ModuleState) :
    (frames n s).targetSunRadius = s.targetSunRadius := by
  induction n with
  | zero => rfl
  | succ k ih => rw [frames, Function.iterate_succ_apply']; exact ih

theorem frames_sunRadius (n : ℕ) (s : ModuleState) :
    (frames n s).sunRadius =
      s.targetSunRadius - (s.targetSunRadius - s.sunRadius) * (9/10) ^ n := by
  induction n with
  | zero => simp [frames]
  | succ k ih =>
      rw [frames, Function.iterate_succ_apply']
      have ht := frames_targetSunRadius k s
      show (frames k s).sunRadius +
        ((frames k s).targetSunRadius - (frames k s).sunRadius) * (1/10) = _
      rw [ht, ih]
      ring

theorem speedMultiplier_frames (n : ℕ) (s : ModuleState) :
    speedMultiplier (frames n s) = speedMultiplier s := by
  induction n with
  | zero => rfl
  | succ k ih => rw [frames, Function.iterate_succ_apply']; exact ih

theorem frames_planets (n : ℕ) (s : ModuleState) :
    (frames n s).planets = s.planets.map (fun p =>
      { p with angle := ⟨p.angle.lin + p.speed * speedMultiplier s * (n : ℚ),
          p.angle.piCoeff⟩ }) := by
  induction n with
  | zero =>
      show s.planets = _
      conv_lhs => rw [← List.map_id s.planets]
      apply List.map_congr_left
      intro p _
      show p = { p with angle := ⟨p.angle.lin + p.speed * speedMultiplier s * (0 : ℚ),
        p.angle.piCoeff⟩ }
      rw [mul_zero, add_zero]
  | succ k ih =>
      rw [frames, Function.iterate_succ_apply']
      show ((frames k s).planets.map (stepPlanet (speedMultiplier (frames k s)))) = _
      rw [speedMultiplier_frames, ih, List.map_map]
      apply List.map_congr_left
      intro p _
      show stepPlanet (speedMultiplier s)
          { p with angle := ⟨p.angle.lin + p.speed * speedMultiplier s * (k : ℚ),
              p.angle.piCoeff⟩ } = _
      rw [stepPlanet]
      have : p.angle.lin + p.speed * speedMultiplier s * (k : ℚ)
          + p.speed * speedMultiplier s
          = p.angle.lin + p.speed * speedMultiplier s * ((k : ℚ) + 1) := by ring
      rw [Nat.cast_succ]
      rw [← this]

/- ### Claim theorems -/

/-- C1: for every audio event with level L, `handleMessage` sets the
animation speed multiplier to clamp((L+80)/20, 0.5, 3) and the target sun
radius to 15 + max(0, (L+60)/3), and changes no other state; in
particular L=−80 gives multiplier 0.5, L=0 gives multiplier 3, L=−60
gives multiplier 1.0, and the target radius is 15 at L=−60, 35 at L=0
and 15 at L=−90. -/
theorem audio_message_sets_speed_and_radius (L : ℚ) (s : ModuleState) :
    (handleMessage (.audio L) s).animationSpeed = clamp ((L + 80) / 20) (1/2) 3 ∧
    (handleMessage (.audio L) s).targetSunRadius = 15 + max 0 ((L + 60) / 3) ∧
    (handleMessage (.audio L) s).agent = s.agent ∧
    (handleMessage (.audio L) s).planets = s.planets ∧
    (handleMessage (.audio L) s).sunRadius = s.sunRadius ∧
    (handleMessage (.audio L) s).sunPulse = s.sunPulse ∧
    (handleMessage (.audio (-80)) s).animationSpeed = 1/2 ∧
    (handleMessage (.audio 0) s).animationSpeed = 3 ∧
    (handleMessage (.audio (-60)) s).animationSpeed = 1 ∧
    (handleMessage (.audio (-60)) s).targetSunRadius = 15 ∧
    (handleMessage (.audio 0) s).targetSunRadius = 35 ∧
    (handleMessage (.audio (-90)) s).targetSunRadius = 15 := by
  have key : ∀ x : ℚ, max (1/2) (min 3 x) = clamp x (1/2) 3 := by
    intro x
    rw [clamp, max_min_distrib_left]
    norm_num
  have hA : ∀ x : ℚ, (handleMessage (.audio x) s).animationSpeed =
      max (1/2) (min 3 ((x + 80) / 20)) := fun _ => rfl
  have hT : ∀ x : ℚ, (handleMessage (.audio x) s).targetSunRadius =
      15 + max 0 ((x + 60) / 3) := fun _ => rfl
  exact ⟨key _, rfl, rfl, rfl, rfl, rfl,
    by rw [hA]; norm_num [min_def, max_def],
    by rw [hA]; norm_num [min_def, max_def],
    by rw [hA]; norm_num [min_def, max_def],
    by rw [hT]; norm_num [min_def, max_def],
    by rw [hT]; norm_num [min_def, max_def],
    by rw [hT]; norm_num [min_def, max_def]⟩

/-- C2 counterexample: the convergence bound as claimed, with a strict
inequality for every starting radius, fails when the start already equals
the target: at page load `sunRadius = targetSunRadius = 18`, and after 30
frames the distance to the target is 0, which is not strictly less than
5% of |18 − 18| = 0. -/
theorem sun_smoothing_not_strict_at_fixed_point :
    ¬ |(frames 30 initState).sunRadius - initState.targetSunRadius| <
        5/100 * |initState.targetSunRadius - initState.sunRadius| := by
  rw [frames_sunRadius]
  show ¬ |(18 : ℚ) - (18 - 18) * (9/10) ^ 30 - 18| < 5/100 * |(18 : ℚ) - 18|
  norm_num

/-- C2 (amended): the per-frame sun-radius update is
`sunRadius += (targetSunRadius − sunRadius) × 0.1`, and whenever the
starting radius differs from the (constant) target, after 30 consecutive
frames the current radius differs from the target by less than 5% of the
initial gap. (As stated the claim fails only in the degenerate case
where the start already equals the target.) -/
theorem sun_smoothing_converges (s : ModuleState)
    (h : s.sunRadius ≠ s.targetSunRadius) :
    (frameStep s).sunRadius =
      s.sunRadius + (s.targetSunRadius - s.sunRadius) * (1/10) ∧
    |(frames 30 s).sunRadius - s.targetSunRadius| <
      5/100 * |s.targetSunRadius - s.sunRadius| := by
  refine ⟨rfl, ?_⟩
  rw [frames_sunRadius]
  have habs : |s.targetSunRadius - (s.targetSunRadius - s.sunRadius) * (9/10) ^ 30
      - s.targetSunRadius| = |s.targetSunRadius - s.sunRadius| * (9/10) ^ 30 := by
    rw [sub_sub_cancel_left, abs_neg, abs_mul, abs_pow,
      abs_of_pos (show (0:ℚ) < 9/10 by norm_num)]
  rw [habs]
  have hpos : (0 : ℚ) < |s.targetSunRadius - s.sunRadius| := by
    rw [abs_pos]
    exact sub_ne_zero.mpr (Ne.symm h)
  have hpow : ((9:ℚ)/10) ^ 30 < 5/100 := by norm_num
  calc |s.targetSunRadius - s.sunRadius| * (9/10) ^ 30
      < |s.targetSunRadius - s.sunRadius| * (5/100) :=
        mul_lt_mul_of_pos_left hpow hpos
    _ = 5/100 * |s.targetSunRadius - s.sunRadius| := mul_comm _ _

/-- C2 witness: a concrete run, starting at radius 0 with target 20. -/
theorem sun_smoothing_converges_witness :
    sampleAudioState.sunRadius ≠ sampleAudioState.targetSunRadius ∧
    ((frameStep sampleAudioState).sunRadius = sampleAudioState.sunRadius +
        (sampleAudioState.targetSunRadius - sampleAudioState.sunRadius) * (1/10) ∧
      |(frames 30 sampleAudioState).sunRadius - sampleAudioState.targetSunRadius| <
        5/100 * |sampleAudioState.targetSunRadius - sampleAudioState.sunRadius|) :=
  ⟨by decide, sun_smoothing_converges sampleAudioState (by decide)⟩

/-- C3: on every rendered frame the per-planet speed multiplier is 3 when
`vadSpeaking`, else `animationSpeed` when `running`, else 0.3, and each
planet's angle advances by its angular speed times that multiplier
(nothing else about a planet changes); the frame step is the only
transition that changes planet angles — the message handler and the
start/stop control leave the planet list untouched. -/
theorem planet_step_multiplier_and_sole_mutator (s : ModuleState) (msg : Msg)
    (ws : Option ℕ) :
    (frameStep s).planets = s.planets.map (fun p =>
      { p with angle := ⟨p.angle.lin + p.speed *
          (if s.agent.vadSpeaking then 3
           else if s.agent.running then s.animationSpeed
           else 3/10),
        p.angle.piCoeff⟩ }) ∧
    (handleMessage msg s).planets = s.planets ∧
    (toggleAgent ws s).1.planets = s.planets := by
  refine ⟨rfl, ?_, ?_⟩
  · cases msg <;> rfl
  · rcases ws with _ | r
    · rfl
    · show (if r ≠ WS_OPEN then (s, (none : Option OutCmd), true)
        else if s.agent.running then (s, some .stop, false)
        else (s, some .start, false)).1.planets = s.planets
      split
      · rfl
      · split <;> rfl

/-- C4: the sun-glow color tier is selected by the strict priority
speaking > verified > running > idle; in particular when `vadSpeaking`
and `speakerVerified` hold simultaneously the speaking tier is rendered,
never the verified tier. -/
theorem glow_tier_priority (s : AgentState) :
    glowTier s = (if s.vadSpeaking then .speaking
                  else if s.speakerVerified then .verified
                  else if s.running then .running
                  else .idle) ∧
    glowTier { s with vadSpeaking := true, speakerVerified := true } =
      GlowTier.speaking ∧
    glowTier { s with vadSpeaking := true, speakerVerified := true } ≠
      GlowTier.verified := by
  refine ⟨rfl, rfl, ?_⟩
  show GlowTier.speaking ≠ GlowTier.verified
  intro h
  exact GlowTier.noConfusion h

/-- C5 counterexample: planet angles do not wrap at 2π — there is no
modulo anywhere in the angle update. Concretely: start at page load,
receive one `vad` speaking message, and render 53 frames; Mercury's
angle is then 53 × (0.04 × 3) = 6.36 radians, strictly greater than 2π,
and it is never reduced. -/
theorem planet_angle_exceeds_two_pi :
    2 * Real.pi <
      (((frames 53 (handleMessage (.vad true) initState)).planets.getD 0
        defaultPlanet).angle).toReal := by
  rw [frames_planets]
  have hm : speedMultiplier (handleMessage (.vad true) initState) = 3 := rfl
  rw [hm]
  show AngleVal.toReal ⟨0 + 4/100 * 3 * ((53 : ℕ) : ℚ), 0⟩ > 2 * Real.pi
  rw [AngleVal.toReal]
  have hpi := Real.pi_lt_d2
  have hq : ((0 + 4/100 * 3 * ((53 : ℕ) : ℚ) : ℚ) : ℝ) = 159/25 := by
    push_cast
    norm_num
  rw [hq]
  have h0 : (((0 : ℚ) : ℝ)) * Real.pi = 0 := by norm_num
  rw [h0, add_zero]
  nlinarith [hpi]

/-- C5 (amended): while rendering is active every planet's angle is
monotonically non-decreasing across frames (in its rational part, with
the π-part untouched, hence as a real radian value), but the angle does
not wrap at 2π: it grows without bound and is only consumed through
sin/cos. Monotonicity holds in every well-formed state (nonnegative
animation speed and planet speeds), and well-formedness is preserved by
both the frame step and every inbound message, so it holds throughout a
session. -/
theorem planet_angles_monotone (s : ModuleState) (msg : Msg)
    (h : wellFormed s = true) :
    List.Forall₂ angleAdvances s.planets (frameStep s).planets ∧
    wellFormed (frameStep s) = true ∧
    wellFormed (handleMessage msg s) = true := by
  rw [wellFormed, Bool.and_eq_true, decide_eq_true_eq, List.all_eq_true] at h
  obtain ⟨hA, hS⟩ := h
  have hS' : ∀ p ∈ s.planets, 0 ≤ p.speed := fun p hp =>
    of_decide_eq_true (hS p hp)
  have hm : 0 ≤ speedMultiplier s := by
    rw [speedMultiplier]
    split
    · norm_num
    · split
      · exact hA
      · norm_num
  refine ⟨?_, ?_, ?_⟩
  · show List.Forall₂ angleAdvances s.planets
      (s.planets.map (stepPlanet (speedMultiplier s)))
    rw [List.forall₂_map_right_iff, List.forall₂_same]
    intro p hp
    have hinc : 0 ≤ p.speed * speedMultiplier s := mul_nonneg (hS' p hp) hm
    refine ⟨le_add_of_nonneg_right hinc, rfl, ?_⟩
    show (p.angle.lin : ℝ) + (p.angle.piCoeff : ℝ) * Real.pi ≤
      ((p.angle.lin + p.speed * speedMultiplier s : ℚ) : ℝ) +
        (p.angle.piCoeff : ℝ) * Real.pi
    have hc : (p.angle.lin : ℝ) ≤
        ((p.angle.lin + p.speed * speedMultiplier s : ℚ) : ℝ) := by
      exact_mod_cast le_add_of_nonneg_right hinc
    exact add_le_add_right hc _
  · rw [wellFormed, Bool.and_eq_true, decide_eq_true_eq, List.all_eq_true]
    refine ⟨hA, ?_⟩
    show ∀ p ∈ s.planets.map (stepPlanet (speedMultiplier s)), _
    intro q hq
    rw [List.mem_map] at hq
    obtain ⟨p, hp, rfl⟩ := hq
    exact hS p hp
  · have hkeep : ∀ t : ModuleState, t.planets = s.planets →
        0 ≤ t.animationSpeed → wellFormed t = true := by
      intro t hpl hta
      rw [wellFormed, Bool.and_eq_true, decide_eq_true_eq, List.all_eq_true, hpl]
      exact ⟨hta, hS⟩
    cases msg with
    | state r v sc sp => exact hkeep _ rfl hA
    | status r => exact hkeep _ rfl hA
    | speaker v sc => exact hkeep _ rfl hA
    | vad sp => exact hkeep _ rfl hA
    | audio L => exact hkeep _ rfl (le_max_of_le_left (by norm_num))
    | other => exact hkeep _ rfl hA

/-- C5 witness: the load-time state is well-formed, so its frame step
advances every planet monotonically. -/
theorem planet_angles_monotone_witness :
    wellFormed initState = true ∧
    (List.Forall₂ angleAdvances initState.planets (frameStep initState).planets ∧
      wellFormed (frameStep initState) = true ∧
      wellFormed (handleMessage Msg.other initState) = true) :=
  ⟨by norm_num [wellFormed, initState, initialPlanets],
    planet_angles_monotone initState Msg.other
      (by norm_num [wellFormed, initState, initialPlanets])⟩

/-- C6: processing the same `state` message twice in a row leaves the
module state — and hence every StatusPresenter projection computed from
it — identical to processing it once. -/
theorem state_message_idempotent (r v sp : Bool) (sc : ℚ) (s : ModuleState) :
    handleMessage (.state r v sc sp) (handleMessage (.state r v sc sp) s) =
      handleMessage (.state r v sc sp) s ∧
    updateUI (handleMessage (.state r v sc sp)
        (handleMessage (.state r v sc sp) s)).agent =
      updateUI (handleMessage (.state r v sc sp) s).agent :=
  ⟨rfl, rfl⟩

/-- C7: invoking the start/stop control while the connection is not open
(`ws` null, or its ready state different from OPEN) transmits no frame,
changes no module state (in particular not the `running` flag), and only
emits a diagnostic log. -/
theorem toggle_while_disconnected_is_noop (ws : Option ℕ) (s : ModuleState)
    (h : ws ≠ some WS_OPEN) :
    toggleAgent ws s = (s, none, true) := by
  rcases ws with _ | r
  · rfl
  · have hr : r ≠ WS_OPEN := fun hrw => h (by rw [hrw])
    show (if r ≠ WS_OPEN then (s, (none : Option OutCmd), true)
      else if s.agent.running then (s, some .stop, false)
      else (s, some .start, false)) = (s, none, true)
    rw [if_pos hr]

/-- C7 witness: at page load `ws` is still null. -/
theorem toggle_while_disconnected_is_noop_witness :
    (none : Option ℕ) ≠ some WS_OPEN ∧
    toggleAgent none initState = (initState, none, true) :=
  ⟨by decide, toggle_while_disconnected_is_noop none initState (by decide)⟩

/-- C8: every connection close at time t marks the connection as down and
schedules exactly one reconnect attempt, firing at t + 2000 ms; over any
sequence of closes, each close contributes exactly one attempt with the
same fixed 2000 ms delay — no backoff growth and no retry ceiling. -/
theorem close_schedules_one_fixed_reconnect (t : ℕ) (ts : List ℕ)
    (c : ConnSched) :
    wsOnClose t c =
      { connected := false, scheduled := c.scheduled ++ [t + 2000] } ∧
    (wsOnClose t c).scheduled.length = c.scheduled.length + 1 ∧
    (processCloses ts c).scheduled =
      c.scheduled ++ ts.map (fun u => u + RECONNECT_DELAY_MS) ∧
    RECONNECT_DELAY_MS = 2000 := by
  refine ⟨rfl, by simp [wsOnClose], ?_, rfl⟩
  induction ts generalizing c with
  | nil => simp [processCloses]
  | cons a l ih =>
      show (processCloses l (wsOnClose a c)).scheduled = _
      rw [ih (wsOnClose a c)]
      simp [wsOnClose]

/-- C9 counterexample: at page load `running` is false, so processing
`{"type":"speaker","verified":true,"score":0.87}` leaves the speaker
badge in the "Waiting..." state, not "Verified" — `updateSpeakerStatus`
shows "Verified" only while the agent is running. The progress fill is
set to 87% regardless. -/
theorem speaker_message_not_verified_at_load :
    (updateSpeakerStatus (handleMessage (.speaker true (87/100)) initState).agent).text
      = "Waiting..." ∧
    (updateSpeakerStatus (handleMessage (.speaker true (87/100)) initState).agent).text
      ≠ "Verified" ∧
    (updateSpeakerStatus (handleMessage (.speaker true (87/100)) initState).agent).fillPercent
      = 87 := by
  have hfloor : jsRound ((87 : ℚ)/100 * 100) = 87 := by
    rw [jsRound, Int.floor_eq_iff]
    constructor <;> norm_num
  refine ⟨rfl, by decide, ?_⟩
  show jsRound ((87 : ℚ)/100 * 100) = 87
  exact hfloor

/-- C9 (amended): processing
`{"type":"speaker","verified":true,"score":0.87}` always sets the
progress fill to 87%, and — provided the agent is running — makes the
speaker badge show the "Verified" state; when the agent is not running
the badge shows the waiting state instead. -/
theorem speaker_message_verified_when_running (s : ModuleState)
    (h : s.agent.running = true) :
    updateSpeakerStatus (handleMessage (.speaker true (87/100)) s).agent =
      { badgeClass := "speaker-badge verified", icon := "✅",
        text := "Verified", fillPercent := 87 } := by
  have hfloor : jsRound (87 : ℚ) = 87 := by
    rw [jsRound, Int.floor_eq_iff]
    constructor <;> norm_num
  simp [updateSpeakerStatus, handleMessage, h, hfloor]

/-- C9 witness: after a `status running=true` message, the scenario
behaves as the spec describes. -/
theorem speaker_message_verified_when_running_witness :
    (handleMessage (.status true) initState).agent.running = true ∧
    updateSpeakerStatus (handleMessage (.speaker true (87/100))
        (handleMessage (.status true) initState)).agent =
      { badgeClass := "speaker-badge verified", icon := "✅",
        text := "Verified", fillPercent := 87 } :=
  ⟨rfl, speaker_message_verified_when_running _ rfl⟩

/-- C10 counterexample: `lightenColor` has no lower clamp, so a negative
percent drives channels below 0: lightening black by −10% yields
channel value min(255, 0 + round(2.55 × −10)) = −25 ∉ [0, 255], and the
function returns the out-of-range color string "rgb(-25, -25, -25)". -/
theorem lighten_escapes_clamp_on_negative_percent :
    lightenRGB 0 (-10) = (-25, -25, -25) ∧
    (lightenRGB 0 (-10)).1 < 0 ∧
    lightenColor 0 (-10) = "rgb(-25, -25, -25)" := by
  have hamt : jsRound (255/100 * (-10 : ℚ)) = -25 := by
    rw [jsRound, Int.floor_eq_iff]
    constructor <;> norm_num
  have h1 : lightenRGB 0 (-10) = (-25, -25, -25) := by
    simp only [lightenRGB, channels, hamt]
    decide
  refine ⟨h1, by rw [h1]; decide, ?_⟩
  rw [lightenColor, h1]
  decide

/-- C10 (amended): for every 24-bit color value and every nonnegative
percent, `lighten` adds round(2.55 × percent) to each channel and
`darken` subtracts it, the result of each is the channel clamped to
[0, 255], and both re-encode the triple as an `rgb(R, G, B)` color
string; both are pure functions of their arguments. (For negative
percents only the one-sided clamps of the source apply, see the
counterexample.) -/
theorem color_helpers_clamped (num : ℕ) (percent : ℚ)
    (h1 : num < 16777216) (h2 : 0 ≤ percent) :
    lightenRGB num percent =
      (max 0 (min 255 (((channels num).1 : ℤ) + jsRound (255/100 * percent))),
       max 0 (min 255 (((channels num).2.1 : ℤ) + jsRound (255/100 * percent))),
       max 0 (min 255 (((channels num).2.2 : ℤ) + jsRound (255/100 * percent)))) ∧
    darkenRGB num percent =
      (max 0 (min 255 (((channels num).1 : ℤ) - jsRound (255/100 * percent))),
       max 0 (min 255 (((channels num).2.1 : ℤ) - jsRound (255/100 * percent))),
       max 0 (min 255 (((channels num).2.2 : ℤ) - jsRound (255/100 * percent)))) ∧
    inByteRange (lightenRGB num percent) ∧
    inByteRange (darkenRGB num percent) ∧
    lightenColor num percent = rgbString (lightenRGB num percent) ∧
    darkenColor num percent = rgbString (darkenRGB num percent) := by
  have hamt : 0 ≤ jsRound (255/100 * percent) := by
    rw [jsRound]
    apply Int.le_floor.mpr
    push_cast
    have hmul : (0 : ℚ) ≤ 255/100 * percent :=
      mul_nonneg (by norm_num) h2
    linarith
  refine ⟨?_, ?_, ?_, ?_, rfl, rfl⟩ <;>
    · simp only [lightenRGB, darkenRGB, inByteRange, channels, Prod.mk.injEq]
      omega

/-- C10 witness: the helpers applied to Mercury's color #b5b5b5 with the
40% lighten percent the renderer actually uses. -/
theorem color_helpers_clamped_witness :
    ((11908533 : ℕ) < 16777216 ∧ (0 : ℚ) ≤ 40) ∧
    (lightenRGB 11908533 40 =
      (max 0 (min 255 (((channels 11908533).1 : ℤ) + jsRound (255/100 * 40))),
       max 0 (min 255 (((channels 11908533).2.1 : ℤ) + jsRound (255/100 * 40))),
       max 0 (min 255 (((channels 11908533).2.2 : ℤ) + jsRound (255/100 * 40)))) ∧
     darkenRGB 11908533 40 =
      (max 0 (min 255 (((channels 11908533).1 : ℤ) - jsRound (255/100 * 40))),
       max 0 (min 255 (((channels 11908533).2.1 : ℤ) - jsRound (255/100 * 40))),
       max 0 (min 255 (((channels 11908533).2.2 : ℤ) - jsRound (255/100 * 40)))) ∧
     inByteRange (lightenRGB 11908533 40) ∧
     inByteRange (darkenRGB 11908533 40) ∧
     lightenColor 11908533 40 = rgbString (lightenRGB 11908533 40) ∧
     darkenColor 11908533 40 = rgbString (darkenRGB 11908533 40)) :=
  ⟨⟨by norm_num, by norm_num⟩,
    color_helpers_clamped 11908533 40 (by norm_num) (by norm_num)⟩

end DoQui
